import Mathlib

/-!
Verification development for the drogue-device actor runtime snapshot.

The definitions below are a shallow embedding of the Rust sources:
  - src/src/device.rs  (Lifecycle, Device, DeviceContext)
  - src/src/driver/sensor/hts221/sensor.rs  (Sensor, DataReady handling)
  - src/examples/nrf52/microbit/uart/src/server.rs  (EchoServer)
Components whose implementation files are not part of this snapshot
(Supervisor, EventBus internals, Mutex, the HTS221 Calibration registers)
are modelled from the specification; each such definition carries a doc
comment starting with "Modelled from the spec:".
-/

namespace Drogue

/-- System-wide lifecycle events, from src/src/device.rs lines 12-24. -/
inductive Lifecycle
  | Initialize
  | Start
  | Stop
  | Sleep
  | Hibernate
deriving DecidableEq, Repr

/-! ## DeviceContext::mount control flow (src/src/device.rs lines 55-61)

The body of `DeviceContext::mount` is three statements: construct the
EventBus bound to this context, call the Device mount with that bus and
the supervisor, call `Supervisor::run_forever`.  We embed the body as a
program-counter state machine.  `Supervisor::run_forever` itself is not
part of this snapshot; its looping behaviour is modelled from the spec. -/

/-- Program counter positions inside the body of `DeviceContext::mount`.
`returnedToCaller` represents control coming back to the caller of
`mount`; the machine never reaches it, matching the `!` return type. -/
inductive MountPC
  | atStart
  | busBuilt
  | deviceMounted
  | inRunForever
  | returnedToCaller
deriving DecidableEq, Repr

/-- Observable events of the mount body: constructing the EventBus bound
to the DeviceContext, the single call `device.mount(bus, supervisor)`
passing that bus and the supervisor, entering `run_forever`, and a
supervisor scheduling tick inside the run-forever loop. -/
inductive MountEvent
  | constructBus
  | callDeviceMount
  | enterRunForever
  | supervisorTick
deriving DecidableEq, Repr

/-- One step of the mount body.  The first three transitions are the
three statements of `DeviceContext::mount` (src/src/device.rs lines
56-59).  Modelled from the spec: `run_forever` loops forever (the loop
runs forever; there is no normal termination path), so `inRunForever`
steps to itself and never to `returnedToCaller`. -/
def mountStep : MountPC → MountPC
  | .atStart => .busBuilt
  | .busBuilt => .deviceMounted
  | .deviceMounted => .inRunForever
  | .inRunForever => .inRunForever
  | .returnedToCaller => .returnedToCaller

/-- Event emitted when stepping from a given program counter. -/
def mountEventAt : MountPC → Option MountEvent
  | .atStart => some .constructBus
  | .busBuilt => some .callDeviceMount
  | .deviceMounted => some .enterRunForever
  | .inRunForever => some .supervisorTick
  | .returnedToCaller => none

/-- The program counter after `n` steps of `DeviceContext::mount`. -/
def mountRun : Nat → MountPC
  | 0 => .atStart
  | n + 1 => mountStep (mountRun n)

/-- The trace of events emitted by the first `n` steps of the mount body. -/
def mountTrace : Nat → List MountEvent
  | 0 => []
  | n + 1 => mountTrace n ++ (mountEventAt (mountRun n)).toList

/-! ## Lifecycle delivery order during mount

The Lifecycle enum lives in src/src/device.rs; the supervisor code that
broadcasts the phases is not part of this snapshot, so the broadcast
sequence is modelled from the spec. -/

/-- A lifecycle dispatch event: a phase being delivered to an actor, or
the Completion returned for that phase by that actor becoming fully
resolved. -/
inductive LifecycleEvent
  | deliver (phase : Lifecycle) (actor : Nat)
  | resolve (phase : Lifecycle) (actor : Nat)
deriving DecidableEq, Repr

/-- The phase an event is about. -/
def LifecycleEvent.phase : LifecycleEvent → Lifecycle
  | .deliver p _ => p
  | .resolve p _ => p

/-- Modelled from the spec: broadcasting one lifecycle phase to a number
of mounted actors delivers the phase to each actor and fully resolves
the returned Completion before moving on. -/
def broadcastPhase (p : Lifecycle) : Nat → List LifecycleEvent
  | 0 => []
  | n + 1 => broadcastPhase p n ++ [.deliver p n, .resolve p n]

/-- Modelled from the spec: the mount sequence broadcasts Initialize,
fully resolving every Completion, then broadcasts Start; Stop, Sleep
and Hibernate are reserved and never emitted. -/
def mountLifecycleTrace (actorCount : Nat) : List LifecycleEvent :=
  broadcastPhase .Initialize actorCount ++ broadcastPhase .Start actorCount

/-! ## DeviceContext event dispatch (src/src/device.rs lines 42-77)

`DeviceContext<D>` holds the device cell and the supervisor cell.  The
device state is a type parameter; the supervisor cell is unspecified for
the event path and kept as a token to show `on_event` leaves it alone.
`on_event` requires the `EventConsumer` evidence (the trait bound
`D: EventConsumer<E>` in Rust), embedded as an explicit function
argument `consume`, and its body performs exactly one invocation of the
device `on_event`; the returned list records the invocations made. -/

structure DeviceContext (σ : Type) where
  device : σ
  supervisor : Nat
deriving Repr

/-- Embedding of `DeviceContext::on_event` (src/src/device.rs lines
69-76): one direct synchronous call into the bound Device, recorded in
the invocation list. -/
def DeviceContext.on_event {σ E : Type} (consume : σ → E → σ)
    (ctx : DeviceContext σ) (e : E) : DeviceContext σ × List E :=
  (⟨consume ctx.device e, ctx.supervisor⟩, [e])

/-- Modelled from the spec: `EventBus::publish` synchronously forwards
to the bound Device through `DeviceContext::on_event`; the bus holds no
buffered events. -/
def EventBus.publish {σ E : Type} (consume : σ → E → σ)
    (ctx : DeviceContext σ) (e : E) : DeviceContext σ × List E :=
  DeviceContext.on_event consume ctx e

/-- Publishing two events in sequence; the invocation lists concatenate. -/
def publishTwice {σ E : Type} (consume : σ → E → σ)
    (ctx : DeviceContext σ) (e₁ e₂ : E) : DeviceContext σ × List E :=
  let r₁ := EventBus.publish consume ctx e₁
  let r₂ := EventBus.publish consume r₁.1 e₂
  (r₂.1, r₁.2 ++ r₂.2)

/-- The runtime failure that a dynamically dispatched event system could
raise when no handler is registered for an event type. -/
inductive DispatchError
  | unhandledEventType
deriving DecidableEq, Repr

/-- A dynamic-dispatch reading of event delivery: the handler may be
absent, in which case delivery fails at runtime.  In the source the
handler is the `EventConsumer` trait bound of `DeviceContext::on_event`,
so the `none` branch is unreachable for any call that type-checks. -/
def dynamicDispatch {σ E : Type} (handler : Option (σ → E → σ))
    (ctx : DeviceContext σ) (e : E) :
    Except DispatchError (DeviceContext σ × List E) :=
  match handler with
  | some consume => .ok (DeviceContext.on_event consume ctx e)
  | none => .error .unhandledEventType

/-! ## Mutex with FIFO wait queue

The synchronization module is not part of this snapshot (the sensor at
src/src/driver/sensor/hts221/sensor.rs lines 50-51 only calls
`i2c.lock().await`), so the lock discipline is modelled from the spec:
at most one holder of the exclusive guard, a FIFO wait queue shared by
all callers, release granting the guard to the next queued waiter. -/

/-- Modelled from the spec: the mutex holds at most one current guard
holder and a FIFO queue of waiting requesters. -/
structure MutexState (α : Type) where
  holder : Option α
  waitq : List α
deriving DecidableEq, Repr

/-- Operations against one mutex: a lock request by requester `r`, or
the release performed when the current guard goes out of scope. -/
inductive MutexOp (α : Type)
  | lockReq (r : α)
  | release
deriving DecidableEq, Repr

/-- Modelled from the spec: a lock request is granted at once when the
guard is free, otherwise the requester joins the back of the FIFO wait
queue; a release grants the guard to the head of the wait queue.  The
second component lists the grant events the operation produced. -/
def MutexState.applyOp {α : Type} :
    MutexState α → MutexOp α → MutexState α × List α
  | s, .lockReq r =>
    match s.holder with
    | none => (⟨some r, s.waitq⟩, [r])
    | some h => (⟨some h, s.waitq ++ [r]⟩, [])
  | s, .release =>
    match s.waitq with
    | [] => (⟨none, []⟩, [])
    | h :: t => (⟨some h, t⟩, [h])

/-- Run a sequence of mutex operations, collecting all grant events. -/
def runMutex {α : Type} : MutexState α → List (MutexOp α) → MutexState α × List α
  | s, [] => (s, [])
  | s, op :: ops =>
    let r₁ := s.applyOp op
    let r₂ := runMutex r₁.1 ops
    (r₂.1, r₁.2 ++ r₂.2)

/-- The requesters of an operation sequence, in arrival order. -/
def arrivals {α : Type} : List (MutexOp α) → List α
  | [] => []
  | .lockReq r :: ops => r :: arrivals ops
  | .release :: ops => arrivals ops

/-- The initial state of a freshly constructed mutex: guard free, empty
wait queue. -/
def mutexInit {α : Type} : MutexState α := ⟨none, []⟩

/-! ## HTS221 sensor (src/src/driver/sensor/hts221/sensor.rs)

The register and calibration modules are not part of this snapshot, so
the calibration arithmetic is modelled from the spec over the rationals;
the DataReady notification handler itself is embedded from the source. -/

/-- Modelled from the spec: the factory calibration coefficient set of
the HTS221, two reference points for temperature and two for humidity. -/
structure Calibration where
  t0_out : ℚ
  t1_out : ℚ
  t0_deg : ℚ
  t1_deg : ℚ
  h0_out : ℚ
  h1_out : ℚ
  h0_rh : ℚ
  h1_rh : ℚ
deriving DecidableEq, Repr

/-- Modelled from the spec: calibrated temperature by linear
interpolation between the two calibration points at the raw `t_out`
register reading. -/
def Calibration.calibrated_temperature (c : Calibration) (t_out : ℚ) : ℚ :=
  c.t0_deg + (c.t1_deg - c.t0_deg) * (t_out - c.t0_out) / (c.t1_out - c.t0_out)

/-- Modelled from the spec: calibrated relative humidity by linear
interpolation between the two calibration points at the raw `h_out`
register reading. -/
def Calibration.calibrated_humidity (c : Calibration) (h_out : ℚ) : ℚ :=
  c.h0_rh + (c.h1_rh - c.h0_rh) * (h_out - c.h0_out) / (c.h1_out - c.h0_out)

/-- Independent reference formula for the calibrated temperature,
written in slope form: the interpolation line through the two
calibration points evaluated at the raw reading. -/
def referenceTemperature (c : Calibration) (t_out : ℚ) : ℚ :=
  c.t0_deg + (c.t1_deg - c.t0_deg) / (c.t1_out - c.t0_out) * (t_out - c.t0_out)

/-- Independent reference formula for the calibrated relative humidity,
written in slope form. -/
def referenceHumidity (c : Calibration) (h_out : ℚ) : ℚ :=
  c.h0_rh + (c.h1_rh - c.h0_rh) / (c.h1_out - c.h0_out) * (h_out - c.h0_out)

/-- The event published by the sensor on a completed acquisition. -/
structure SensorAcquisition where
  temperature : ℚ
  relative_humidity : ℚ
deriving DecidableEq, Repr

/-- Effects the DataReady handler can perform: publishing an acquisition
on the event bus or writing a diagnostic log line. -/
inductive SensorEffect
  | publish (e : SensorAcquisition)
  | logInfo (msg : String)
deriving DecidableEq, Repr

/-- State of the HTS221 sensor actor, from
src/src/driver/sensor/hts221/sensor.rs lines 19-28: the fixed I2C
address, the optional mutex address of the shared I2C bus, the optional
calibration data and the optional event bus handle. -/
structure SensorState where
  address : Nat
  i2c : Option Nat
  calibration : Option Calibration
  bus : Option Nat
deriving DecidableEq, Repr

/-- Embedding of `Sensor::new` (sensor.rs lines 35-42): fixed address
0x5F, no I2C binding, no calibration, no bus. -/
def Sensor.new : SensorState := ⟨0x5F, none, none, none⟩

/-- Embedding of the `NotificationHandler<DataReady>` body (sensor.rs
lines 153-180).  The raw register readings `t_out` and `h_out` are the
values the two I2C reads return.  When the I2C binding is absent the
handler does nothing; with calibration present it publishes the
calibrated acquisition through the bus (whose absence would be the
`unwrap` panic, modelled as `none`); without calibration it only logs a
diagnostic. -/
def Sensor.onDataReady (s : SensorState) (t_out h_out : ℚ) :
    Option (SensorState × List SensorEffect) :=
  if s.i2c.isSome then
    match s.calibration with
    | some cal =>
      match s.bus with
      | some _ =>
        some (s, [.publish ⟨cal.calibrated_temperature t_out,
                            cal.calibrated_humidity h_out⟩])
      | none => none
    | none => some (s, [.logInfo "[hts221] no calibration data available"])
  else some (s, [])

/-- Concrete calibration coefficient set used to instantiate theorems. -/
def calSample : Calibration := ⟨0, 8, 10, 20, 0, 2, 30, 70⟩

/-! ## EchoServer (src/examples/nrf52/microbit/uart/src/server.rs)

The actor state and both `on_mount` declarations are embedded from the
source.  The async body of the future-returning `on_mount` is
represented by the trace of operations it performs; `input k` is the
byte delivered by the k-th `uart.read`. -/

/-- State of the echo server actor (server.rs lines 11-15). -/
structure EchoServer (U : Type) where
  uart : U
  matrix : Option Nat
  statistics : Option Nat
deriving Repr

/-- Embedding of `EchoServer::new` (server.rs lines 20-26): both
addresses start absent. -/
def EchoServer.new {U : Type} (u : U) : EchoServer U := ⟨u, none, none⟩

/-- Embedding of the synchronous `on_mount` (server.rs lines 38-41): it
stores the two configured addresses and returns unit. -/
def EchoServer.on_mount_store {U : Type} (s : EchoServer U)
    (config : Nat × Nat) : EchoServer U :=
  ⟨s.uart, some config.1, some config.2⟩

/-- Operations performed by the echo server async body. -/
inductive ServerOp
  | matrixApplyFrame (c : Char)
  | timerAfterMillis (ms : Nat)
  | matrixClear
  | uartWrite (bytes : List Nat)
  | logReady
  | uartRead (count : Nat)
  | statsIncrementCharacterCount
deriving DecidableEq, Repr

/-- Whether an operation touches the UART. -/
def ServerOp.isUart : ServerOp → Bool
  | .uartWrite _ => true
  | .uartRead _ => true
  | _ => false

/-- The welcome string of the echo service (server.rs line 57). -/
def motd : String := "Welcome to the Drogue Echo Service\r\n"

/-- The bytes of the welcome string (`motd.as_bytes()`, ASCII). -/
def motdBytes : List Nat := motd.data.map Char.toNat

/-- The 128-byte zeroed buffer `buf` (server.rs line 56). -/
def uartBuf : List Nat := List.replicate 128 0

/-- The buffer after `buf[..motd.len()].clone_from_slice(motd)`
(server.rs line 58). -/
def bufAfterMotd : List Nat := motdBytes ++ uartBuf.drop motdBytes.length

/-- The slice `&buf[..motd.len()]` passed to `uart.write` (line 59). -/
def motdWriteSlice : List Nat := bufAfterMotd.take motdBytes.length

/-- The characters of the matrix animation string (server.rs line 50). -/
def helloChars : List Char := "Hello, World!".data

/-- The operations before the echo loop (server.rs lines 50-61): the
matrix animation, the matrix clear, the single welcome write, the ready
log line. -/
def mountIntro : List ServerOp :=
  (helloChars.flatMap fun c => [.matrixApplyFrame c, .timerAfterMillis 200])
    ++ [.matrixClear, .uartWrite motdWriteSlice, .logReady]

/-- One iteration of the steady-state echo loop (server.rs lines 62-73):
read one byte, write it back, show it on the matrix, bump the counter. -/
def echoIteration (b : Nat) : List ServerOp :=
  [.uartRead 1, .uartWrite [b], .matrixApplyFrame (Char.ofNat b),
   .statsIncrementCharacterCount]

/-- The trace of the async body truncated to n echo iterations. -/
def serverTrace (input : Nat → Nat) (n : Nat) : List ServerOp :=
  mountIntro ++ (List.range n).flatMap fun k => echoIteration (input k)

/-- Embedding of the future-returning `on_mount` (server.rs lines
43-75).  The matrix and statistics options are unwrapped before the
async block is built, so a missing address is a panic, modelled as
`none`; the configuration argument is ignored by this form, exactly as
in the source. -/
def EchoServer.on_mount {U : Type} (s : EchoServer U) (_config : Nat × Nat)
    (input : Nat → Nat) (n : Nat) : Option (List ServerOp) :=
  match s.matrix, s.statistics with
  | some _, some _ => some (serverTrace input n)
  | _, _ => none

/-! # Theorems -/

theorem mountRun_add_three (n : Nat) : mountRun (n + 3) = .inRunForever := by
  induction n with
  | zero => rfl
  | succ k ih =>
      show mountStep (mountRun (k + 3)) = _
      rw [ih]
      rfl

theorem mountTrace_closed_form (n : Nat) :
    mountTrace (n + 3) =
      [.constructBus, .callDeviceMount, .enterRunForever]
        ++ List.replicate n .supervisorTick := by
  induction n with
  | zero => rfl
  | succ k ih =>
      show mountTrace (k + 3) ++ (mountEventAt (mountRun (k + 3))).toList = _
      rw [ih, mountRun_add_three]
      simp [List.replicate_succ', mountEventAt]

theorem mountRun_ne_returned (n : Nat) : mountRun n ≠ .returnedToCaller := by
  match n with
  | 0 => simp [mountRun]
  | 1 => simp [mountRun, mountStep]
  | 2 => simp [mountRun, mountStep]
  | k + 3 => rw [mountRun_add_three]; simp

/-- C1: `DeviceContext::mount` first constructs the EventBus, then calls
the user Device mount exactly once with that bus and the supervisor,
then enters `Supervisor::run_forever`, and never returns to its caller:
the trace of any execution is the three mount statements followed only
by supervisor ticks, the device-mount call occurs exactly once, and the
program counter never reaches `returnedToCaller`. -/
theorem claim_C1_mount_control_flow (n : Nat) :
    mountTrace (n + 3) =
      [.constructBus, .callDeviceMount, .enterRunForever]
        ++ List.replicate n .supervisorTick
    ∧ (mountTrace (n + 3)).count .callDeviceMount = 1
    ∧ mountRun n ≠ .returnedToCaller := by
  refine ⟨mountTrace_closed_form n, ?_, mountRun_ne_returned n⟩
  rw [mountTrace_closed_form n]
  simp [List.count_append, List.count_replicate, List.count_cons]

/-- Witness for C1 at two loop iterations. -/
theorem claim_C1_mount_control_flow_witness :
    mountTrace 5 =
      [.constructBus, .callDeviceMount, .enterRunForever]
        ++ List.replicate 2 .supervisorTick
    ∧ (mountTrace 5).count .callDeviceMount = 1
    ∧ mountRun 2 ≠ .returnedToCaller :=
  claim_C1_mount_control_flow 2

theorem length_broadcastPhase (p : Lifecycle) (n : Nat) :
    (broadcastPhase p n).length = 2 * n := by
  induction n with
  | zero => rfl
  | succ k ih => simp [broadcastPhase, ih]; omega

theorem phase_of_mem_broadcastPhase {p : Lifecycle} {n : Nat}
    {e : LifecycleEvent} (h : e ∈ broadcastPhase p n) : e.phase = p := by
  induction n with
  | zero => simp [broadcastPhase] at h
  | succ k ih =>
      simp only [broadcastPhase, List.mem_append, List.mem_cons,
        List.not_mem_nil, or_false] at h
      rcases h with h | h | h
      · exact ih h
      · rw [h]; rfl
      · rw [h]; rfl

/-- C2: over the modelled mount sequence, every emitted lifecycle event
is about Initialize or Start (Stop, Sleep, Hibernate never occur), and
every resolution of an Initialize Completion happens strictly before
any delivery of Start to any actor. -/
theorem claim_C2_lifecycle_order (n : Nat) :
    (∀ e ∈ mountLifecycleTrace n, e.phase = .Initialize ∨ e.phase = .Start)
    ∧ (∀ (a b i j : Nat),
        (mountLifecycleTrace n)[i]? =
          some (LifecycleEvent.deliver Lifecycle.Start b) →
        (mountLifecycleTrace n)[j]? =
          some (LifecycleEvent.resolve Lifecycle.Initialize a) →
        j < i) := by
  constructor
  · intro e he
    rcases List.mem_append.mp he with h | h
    · exact Or.inl (phase_of_mem_broadcastPhase h)
    · exact Or.inr (phase_of_mem_broadcastPhase h)
  · intro a b i j hi hj
    have hIlen : (broadcastPhase Lifecycle.Initialize n).length = 2 * n :=
      length_broadcastPhase _ n
    have hi' : ¬ i < (broadcastPhase Lifecycle.Initialize n).length := by
      intro hlt
      rw [mountLifecycleTrace, List.getElem?_append_left hlt] at hi
      have hmem : LifecycleEvent.deliver .Start b
          ∈ broadcastPhase Lifecycle.Initialize n := by
        have := List.getElem?_eq_some.mp hi
        rcases this with ⟨hb, hval⟩
        exact hval ▸ List.getElem_mem hb
      have := phase_of_mem_broadcastPhase hmem
      simp [LifecycleEvent.phase] at this
    have hj' : j < (broadcastPhase Lifecycle.Initialize n).length := by
      by_contra hge
      push_neg at hge
      rw [mountLifecycleTrace, List.getElem?_append_right hge] at hj
      have hmem : LifecycleEvent.resolve .Initialize a
          ∈ broadcastPhase Lifecycle.Start n := by
        have := List.getElem?_eq_some.mp hj
        rcases this with ⟨hb, hval⟩
        exact hval ▸ List.getElem_mem hb
      have := phase_of_mem_broadcastPhase hmem
      simp [LifecycleEvent.phase] at this
    omega

/-- Witness for C2 with one actor: the Start delivery at index 2 follows
the Initialize resolution at index 1, and a concrete trace member has an
allowed phase. -/
theorem claim_C2_lifecycle_order_witness :
    ((LifecycleEvent.deliver .Initialize 0).phase = .Initialize
      ∨ (LifecycleEvent.deliver .Initialize 0).phase = .Start)
    ∧ (1 : Nat) < 2 :=
  ⟨(claim_C2_lifecycle_order 1).1 _ (by decide),
   (claim_C2_lifecycle_order 1).2 0 0 2 1 rfl rfl⟩

theorem runMutex_grants_fifo {α : Type} (ops : List (MutexOp α))
    (s : MutexState α) (hinv : s.holder = none → s.waitq = []) :
    (runMutex s ops).2 ++ (runMutex s ops).1.waitq = s.waitq ++ arrivals ops := by
  induction ops generalizing s with
  | nil => simp [runMutex, arrivals]
  | cons op ops ih =>
      cases op with
      | lockReq r =>
          cases hh : s.holder with
          | none =>
              have hq : s.waitq = [] := hinv hh
              have ih' := ih ⟨some r, s.waitq⟩ (by intro h; cases h)
              simp only [runMutex, MutexState.applyOp, hh, arrivals, hq] at *
              simp only [List.append_assoc, ih']
              simp [hq]
          | some h₀ =>
              have ih' := ih ⟨some h₀, s.waitq ++ [r]⟩ (by intro h; cases h)
              simp only [runMutex, MutexState.applyOp, hh, arrivals] at *
              simp only [List.nil_append, ih']
              simp
      | release =>
          cases hq : s.waitq with
          | nil =>
              have ih' := ih ⟨none, []⟩ (by intro _; rfl)
              simp only [runMutex, MutexState.applyOp, hq, arrivals] at *
              simp [ih']
          | cons h t =>
              have ih' := ih ⟨some h, t⟩ (by intro hc; cases hc)
              simp only [runMutex, MutexState.applyOp, hq, arrivals] at *
              simp [ih']

/-- C3: from the initial mutex state, for every operation sequence the
emitted guard grants followed by the still-waiting requesters are
exactly the requests in arrival order, hence the grant sequence is the
order-preserving prefix of the arrival order (no guard-order
inversion); the state never records more than one concurrent holder of
the exclusive guard; and a release with a non-empty wait queue grants
the guard exactly to the head waiter, unblocking it. -/
theorem claim_C3_mutex_fifo {α : Type} (ops : List (MutexOp α)) :
    (runMutex mutexInit ops).2 ++ (runMutex mutexInit ops).1.waitq
        = arrivals ops
    ∧ (runMutex mutexInit ops).2
        = (arrivals ops).take (runMutex mutexInit ops).2.length
    ∧ (∀ (s : MutexState α) (op : MutexOp α),
        ((s.applyOp op).1.holder).toList.length ≤ 1)
    ∧ (∀ (h₀ h : α) (t : List α),
        MutexState.applyOp ⟨some h₀, h :: t⟩ .release = (⟨some h, t⟩, [h])) := by
  have hmain : (runMutex mutexInit ops).2 ++ (runMutex mutexInit ops).1.waitq
      = arrivals ops := by
    have h := runMutex_grants_fifo ops (mutexInit (α := α)) (fun _ => rfl)
    rw [show (mutexInit (α := α)).waitq = [] from rfl, List.nil_append] at h
    exact h
  refine ⟨hmain, ?_, ?_, ?_⟩
  · conv_lhs => rw [← List.take_left (runMutex mutexInit ops).2
      (runMutex mutexInit ops).1.waitq]
    rw [hmain]
  · intro s op
    obtain ⟨holder, waitq⟩ := s
    cases op with
    | lockReq r => cases holder <;> simp [MutexState.applyOp]
    | release => cases waitq <;> simp [MutexState.applyOp]
  · intro h₀ h t
    rfl

/-- C4: delivering an event through the publish path performs exactly
one synchronous invocation of the Device on_event with that event,
updates only the device state and touches no buffer, and publishing
the same event twice yields exactly two invocations with that event,
without deduplication or coalescing. -/
theorem claim_C4_publish_synchronous {σ E : Type} (consume : σ → E → σ)
    (ctx : DeviceContext σ) (e : E) :
    (EventBus.publish consume ctx e).2 = [e]
    ∧ (EventBus.publish consume ctx e).1.device = consume ctx.device e
    ∧ (EventBus.publish consume ctx e).1.supervisor = ctx.supervisor
    ∧ (publishTwice consume ctx e e).2 = [e, e]
    ∧ (publishTwice consume ctx e e).1.device
        = consume (consume ctx.device e) e :=
  ⟨rfl, rfl, rfl, rfl, rfl⟩

/-- C7: event delivery is only statable with the EventConsumer evidence
in hand, and with that evidence the dynamic-dispatch reading of
`DeviceContext::on_event` always succeeds: the unhandled-event runtime
error is reachable only in the evidence-free case, which the trait
bound `D: EventConsumer<E>` rules out at compile time. -/
theorem claim_C7_no_runtime_unhandled {σ E : Type} (consume : σ → E → σ)
    (ctx : DeviceContext σ) (e : E) :
    dynamicDispatch (some consume) ctx e
        = .ok (DeviceContext.on_event consume ctx e)
    ∧ (dynamicDispatch (some consume) ctx e).isOk = true
    ∧ dynamicDispatch (none : Option (σ → E → σ)) ctx e
        = .error .unhandledEventType :=
  ⟨rfl, rfl, rfl⟩

theorem calibrated_temperature_eq_reference (c : Calibration) (t_out : ℚ) :
    c.calibrated_temperature t_out = referenceTemperature c t_out := by
  unfold Calibration.calibrated_temperature referenceTemperature
  rw [div_mul_eq_mul_div]

theorem calibrated_humidity_eq_reference (c : Calibration) (h_out : ℚ) :
    c.calibrated_humidity h_out = referenceHumidity c h_out := by
  unfold Calibration.calibrated_humidity referenceHumidity
  rw [div_mul_eq_mul_div]

/-- C6: with calibration data present, the DataReady handler publishes
exactly one SensorAcquisition whose temperature and relative humidity
are the independent reference calibration formulas applied to the same
raw t_out and h_out readings, and leaves the sensor state unchanged. -/
theorem claim_C6_calibrated_acquisition (s : SensorState) (cal : Calibration)
    (t_out h_out : ℚ) (b : Nat)
    (hi2c : s.i2c.isSome = true) (hcal : s.calibration = some cal)
    (hbus : s.bus = some b) :
    Sensor.onDataReady s t_out h_out =
      some (s, [.publish ⟨referenceTemperature cal t_out,
                          referenceHumidity cal h_out⟩]) := by
  unfold Sensor.onDataReady
  rw [hi2c, hcal, hbus]
  simp only [calibrated_temperature_eq_reference,
    calibrated_humidity_eq_reference]
  rfl

/-- Witness for C6 at a concrete calibration set and raw readings. -/
theorem claim_C6_calibrated_acquisition_witness :
    Sensor.onDataReady ⟨0x5F, some 0, some calSample, some 0⟩ 4 1 =
      some (⟨0x5F, some 0, some calSample, some 0⟩,
        [.publish ⟨referenceTemperature calSample 4,
                   referenceHumidity calSample 1⟩]) :=
  claim_C6_calibrated_acquisition _ calSample 4 1 0 rfl rfl rfl

/-- C8: when the DataReady handler runs with the I2C binding present
but no calibration data, it handles the condition locally: the result
is exactly the original sensor state together with the single
diagnostic log effect, so nothing is published, the state is unchanged
and no fault is escalated. -/
theorem claim_C8_missing_calibration_local (s : SensorState)
    (t_out h_out : ℚ) (hi2c : s.i2c.isSome = true)
    (hcal : s.calibration = none) :
    Sensor.onDataReady s t_out h_out =
      some (s, [.logInfo "[hts221] no calibration data available"]) := by
  unfold Sensor.onDataReady
  rw [hi2c, hcal]
  rfl

/-- Witness for C8 at a concrete uncalibrated sensor state. -/
theorem claim_C8_missing_calibration_local_witness :
    Sensor.onDataReady ⟨0x5F, some 0, none, some 0⟩ 4 1 =
      some (⟨0x5F, some 0, none, some 0⟩,
        [.logInfo "[hts221] no calibration data available"]) :=
  claim_C8_missing_calibration_local _ 4 1 rfl rfl

theorem motdWriteSlice_eq : motdWriteSlice = motdBytes := by
  unfold motdWriteSlice bufAfterMotd
  exact List.take_left motdBytes (uartBuf.drop motdBytes.length)

theorem find_uart_mountIntro :
    mountIntro.find? ServerOp.isUart = some (.uartWrite motdWriteSlice) := by
  decide

/-- C5: the first UART operation the echo server performs after mount is
a single write of exactly the welcome string bytes, the written buffer
slice is exactly those bytes, and everything after the mount section of
the trace is the steady-state loop that reads one character and writes
it back. -/
theorem claim_C5_welcome_first (input : Nat → Nat) (n : Nat) :
    (serverTrace input n).find? ServerOp.isUart
        = some (.uartWrite motdBytes)
    ∧ motdWriteSlice = motdBytes
    ∧ (serverTrace input n).drop mountIntro.length
        = (List.range n).flatMap (fun k => echoIteration (input k)) := by
  refine ⟨?_, motdWriteSlice_eq, ?_⟩
  · rw [serverTrace, List.find?_append, find_uart_mountIntro,
      motdWriteSlice_eq]
    rfl
  · rw [serverTrace]
    exact List.drop_left mountIntro _

/-- C9: the echo server carries both mount declarations: the synchronous
`on_mount` stores the configured matrix and statistics addresses, the
future-returning `on_mount` fails on a fresh server (so the two forms
are not equivalent), and it succeeds exactly after the synchronous form
has performed the configuration storage it depends on. -/
theorem claim_C9_dual_mount_forms {U : Type} (u : U) (config : Nat × Nat)
    (input : Nat → Nat) (n : Nat) :
    ((EchoServer.new u).on_mount_store config).matrix = some config.1
    ∧ ((EchoServer.new u).on_mount_store config).statistics = some config.2
    ∧ (EchoServer.new u).on_mount config input n = none
    ∧ ((EchoServer.new u).on_mount_store config).on_mount config input n
        = some (serverTrace input n) :=
  ⟨rfl, rfl, rfl, rfl⟩

/-- C10: the future-returning `on_mount` unwraps the matrix and
statistics addresses before its async body exists: on a server fresh
from `new` (both fields absent) it panics, and it produces a body
exactly when both addresses were stored first, which is the unstated
precondition that the configuration-storing `on_mount` ran before it. -/
theorem claim_C10_unwrap_precondition {U : Type} (u : U)
    (config : Nat × Nat) (input : Nat → Nat) (n : Nat)
    (s : EchoServer U) :
    (EchoServer.new u).matrix = none
    ∧ (EchoServer.new u).statistics = none
    ∧ (EchoServer.new u).on_mount config input n = none
    ∧ (∀ (a b : Nat), s.matrix = some a → s.statistics = some b →
        s.on_mount config input n = some (serverTrace input n)) := by
  refine ⟨rfl, rfl, rfl, ?_⟩
  intro a b ha hb
  unfold EchoServer.on_mount
  rw [ha, hb]

/-- Witness for C10: the fresh server panics while a configured server
produces the async body. -/
theorem claim_C10_unwrap_precondition_witness :
    (EchoServer.new ()).on_mount (3, 4) (fun _ => 0) 0 = none
    ∧ (⟨(), some 3, some 4⟩ : EchoServer Unit).on_mount (3, 4) (fun _ => 0) 0
        = some (serverTrace (fun _ => 0) 0) :=
  ⟨(claim_C10_unwrap_precondition () (3, 4) (fun _ => 0) 0
      (EchoServer.new ())).2.2.1,
   (claim_C10_unwrap_precondition () (3, 4) (fun _ => 0) 0
      ⟨(), some 3, some 4⟩).2.2.2 3 4 rfl rfl⟩

end Drogue
